import Mathlib

/-
Shallow embedding of the golf-ball trajectory physics engine
(src/gptgolf: physics.cpp, atmosphere.cpp, trajectory.cpp and the
validation header).  IEEE doubles are idealised as real numbers; a value
that the C++ code can compute as NaN through a 0/0 division is modelled
as an `Option ℝ` that is `none` in exactly that case.
-/

namespace GptGolf

noncomputable section

/-! ## Physical constants (include/physics/physics.h) -/

def GRAVITY : ℝ := 9.81
def STANDARD_AIR_DENSITY : ℝ := 1.225
def AIR_VISCOSITY : ℝ := 1.81e-5
def BALL_MASS : ℝ := 0.0459
def BALL_RADIUS : ℝ := 0.0213
def BALL_AREA : ℝ := Real.pi * BALL_RADIUS * BALL_RADIUS
def BASE_DRAG_COEFFICIENT : ℝ := 0.47
def BASE_LIFT_COEFFICIENT : ℝ := 0.25
def CRITICAL_REYNOLDS : ℝ := 4.0e4
def TURBULENT_REYNOLDS : ℝ := 4.0e5
def SPIN_DECAY_RATE : ℝ := 0.045
def SURFACE_ROUGHNESS : ℝ := 0.0014
def MAX_LIFT_COEFFICIENT : ℝ := 0.35

/-! ## Atmosphere (src/physics/atmosphere.cpp) -/

structure AtmosphericLayer where
  baseAltitude : ℝ
  temperature : ℝ
  pressure : ℝ
  lapseRate : ℝ

/-- Gas constant for dry air, `AtmosphericModel::R`. -/
def atmosR : ℝ := 287.058

/-- Gravitational acceleration, `AtmosphericModel::g`. -/
def atmosG : ℝ := 9.80665

/-- The ISA layers set up in `AtmosphericModel::AtmosphericModel()`. -/
def layers : List AtmosphericLayer :=
  [⟨0, 288.15, 101325.0, -0.0065⟩,
   ⟨11000, 216.65, 22632.1, 0.0⟩,
   ⟨20000, 216.65, 5474.89, 0.001⟩,
   ⟨32000, 228.65, 868.019, 0.0028⟩,
   ⟨47000, 270.65, 110.906, 0.0⟩]

/-- The scanning loop of `AtmosphericModel::findLayerIndex`, walking the
layer list from index 1 upward (`i` is the index of the head of the
remaining suffix `ls`); returns `i - 1` at the first layer whose base is
above `altitude`, and `layers.length - 1` when the loop runs off the end. -/
def findLayerScan (altitude : ℝ) : ℕ → List AtmosphericLayer → ℕ
  | _, [] => layers.length - 1
  | i, l :: ls =>
    if altitude < l.baseAltitude then i - 1 else findLayerScan altitude (i + 1) ls

/-- `AtmosphericModel::findLayerIndex` (the C++ for-loop starts at i = 1). -/
def findLayerIndex (altitude : ℝ) : ℕ :=
  findLayerScan altitude 1 (layers.drop 1)

/-- `AtmosphericModel::getLayer` (vector indexing; the index is always in
range, the default is never used). -/
def getLayer (altitude : ℝ) : AtmosphericLayer :=
  layers.getD (findLayerIndex altitude) ⟨0, 0, 0, 0⟩

/-- `AtmosphericModel::getTemperature`. -/
def getTemperature (altitude : ℝ) : ℝ :=
  let layer := getLayer altitude
  layer.temperature + layer.lapseRate * (altitude - layer.baseAltitude)

/-- `AtmosphericModel::getPressure`. -/
def getPressure (altitude : ℝ) : ℝ :=
  let layer := getLayer altitude
  let deltaH := altitude - layer.baseAltitude
  let T := getTemperature altitude
  if |layer.lapseRate| < 1e-10 then
    layer.pressure * Real.exp (-atmosG * deltaH / (atmosR * T))
  else
    layer.pressure * (T / layer.temperature) ^ (-atmosG / (atmosR * layer.lapseRate))

/-- `AtmosphericModel::getDensity` on the `weatherData == nullptr` path,
which is the only path the trajectory code exercises
(`getAirDensity(nullptr, y)`). -/
def getDensity (altitude : ℝ) : ℝ :=
  getPressure altitude / (atmosR * getTemperature altitude)

/-- `getAirDensity` (physics.cpp) with a null weather pointer. -/
def getAirDensity (altitude : ℝ) : ℝ := getDensity altitude

/-! ## Aerodynamics (src/physics/physics.cpp) -/

/-- `calculateReynoldsNumber`. -/
def calculateReynoldsNumber (velocity altitude : ℝ) : ℝ :=
  getAirDensity altitude * velocity * (2 * BALL_RADIUS) / AIR_VISCOSITY

/-- `calculateDragCoefficient`: three-regime drag-crisis model. -/
def calculateDragCoefficient (reynoldsNumber : ℝ) : ℝ :=
  if reynoldsNumber < CRITICAL_REYNOLDS then
    BASE_DRAG_COEFFICIENT
  else if reynoldsNumber > TURBULENT_REYNOLDS then
    BASE_DRAG_COEFFICIENT * 0.5
  else
    BASE_DRAG_COEFFICIENT *
      (1.0 - 0.5 * ((reynoldsNumber - CRITICAL_REYNOLDS) /
        (TURBULENT_REYNOLDS - CRITICAL_REYNOLDS)))

/-- `calculateSpinDecay`: exponential decay of the spin rate. -/
def calculateSpinDecay (initialSpin time : ℝ) : ℝ :=
  initialSpin * Real.exp (-SPIN_DECAY_RATE * time)

/-- `calculateLiftCoefficient`. -/
def calculateLiftCoefficient (spinRate velocity : ℝ) : ℝ :=
  let spinFactor := (spinRate * Real.pi / 30.0) * BALL_RADIUS / velocity
  let roughnessEffect := 1.0 + (SURFACE_ROUGHNESS / BALL_RADIUS)
  min (BASE_LIFT_COEFFICIENT * spinFactor * roughnessEffect) MAX_LIFT_COEFFICIENT

/-- Spin-axis orientation (physics.h `SpinAxis`). -/
structure SpinAxis where
  tilt : ℝ
  direction : ℝ

/-- `calculateMagnusForce`.  The C++ divides the spin components by the
decayed spin `currentSpin`; when `currentSpin = 0` both divisions are
0/0, which IEEE evaluates to NaN and which propagates to the returned
double.  The embedding returns `none` in exactly that case and the real
value otherwise. -/
def calculateMagnusForce (spinRate velocity : ℝ) (_radius : ℝ)
    (spinAxis : SpinAxis) (time : ℝ) : Option ℝ :=
  let currentSpin := calculateSpinDecay spinRate time
  if currentSpin = 0 then none
  else
    let tiltRad := spinAxis.tilt * Real.pi / 180.0
    let directionRad := spinAxis.direction * Real.pi / 180.0
    let verticalSpin := currentSpin * Real.cos tiltRad
    let horizontalSpin := currentSpin * Real.sin tiltRad
    let liftCoef := calculateLiftCoefficient currentSpin velocity
    let forceMagnitude := 0.5 * STANDARD_AIR_DENSITY * BALL_AREA *
      liftCoef * velocity * velocity
    let verticalForce := forceMagnitude * (verticalSpin / currentSpin)
    let horizontalForce := forceMagnitude * (horizontalSpin / currentSpin)
    some (verticalForce * Real.cos directionRad +
          horizontalForce * Real.sin directionRad)

/-- `getWindGradient`: power-law wind profile with a cutoff near the ground. -/
def getWindGradient (baseWindSpeed altitude : ℝ) : ℝ :=
  if altitude < 0.1 then baseWindSpeed
  else baseWindSpeed * (altitude / 10.0) ^ (0.143 : ℝ)

/-- `calculateRelativeVelocity` (the two out-parameters become a pair). -/
def calculateRelativeVelocity (velocityX velocityY windSpeed windAngle : ℝ) :
    ℝ × ℝ :=
  let windAngleRad := windAngle * Real.pi / 180.0
  (velocityX - windSpeed * Real.cos windAngleRad,
   velocityY - windSpeed * Real.sin windAngleRad)

/-- `Vector3D` (include/physics/vector3d.h). -/
structure Vector3D where
  x : ℝ
  y : ℝ
  z : ℝ

/-- `Vector3D::magnitude`. -/
def Vector3D.magnitude (v : Vector3D) : ℝ :=
  Real.sqrt (v.x * v.x + v.y * v.y + v.z * v.z)

/-- `Vector3D::scale`. -/
def Vector3D.scale (v : Vector3D) (scalar : ℝ) : Vector3D :=
  ⟨v.x * scalar, v.y * scalar, v.z * scalar⟩

/-- `Vector3D::operator-`. -/
def Vector3D.sub (a b : Vector3D) : Vector3D :=
  ⟨a.x - b.x, a.y - b.y, a.z - b.z⟩

/-! ## Validation (include/physics/physics_validation.h) -/

/-- The exception carried by `PhysicsValidationError`. -/
structure PhysicsValidationError where
  msg : String
deriving DecidableEq

/-- `validation::validateLaunchParameters`; a thrown exception becomes
`Except.error`. -/
def validateLaunchParameters (initialSpeed launchAngle spinRate
    windSpeed windAngle : ℝ) : Except PhysicsValidationError Unit :=
  if initialSpeed < 0.0 then .error ⟨"Initial speed cannot be negative"⟩
  else if initialSpeed > 100.0 then
    .error ⟨"Initial speed exceeds maximum physical limit"⟩
  else if launchAngle < -90.0 ∨ launchAngle > 90.0 then
    .error ⟨"Launch angle must be between -90 and 90 degrees"⟩
  else if spinRate < 0.0 then .error ⟨"Spin rate cannot be negative"⟩
  else if spinRate > 10000.0 then
    .error ⟨"Spin rate exceeds maximum physical limit"⟩
  else if windSpeed < 0.0 then .error ⟨"Wind speed cannot be negative"⟩
  else if windSpeed > 50.0 then
    .error ⟨"Wind speed exceeds maximum expected value"⟩
  else if windAngle < 0.0 ∨ windAngle > 360.0 then
    .error ⟨"Wind angle must be between 0 and 360 degrees"⟩
  else .ok ()

/-- A point of the flight path (physics.h `TrajectoryPoint`). -/
structure TrajectoryPoint where
  x : ℝ
  y : ℝ

/-- `validation::validateTrajectoryPoint` with its default
`maxDistance = 1000`.  The `!isfinite` branch cannot fire in the
real-number model (every `ℝ` is finite), so only the range checks remain. -/
def validateTrajectoryPoint (point : TrajectoryPoint) :
    Except PhysicsValidationError Unit :=
  if point.x < 0.0 ∨ point.x > 1000.0 then
    .error ⟨"Trajectory point X coordinate out of bounds"⟩
  else if point.y < -0.1 ∨ point.y > 500.0 then
    .error ⟨"Trajectory point Y coordinate out of bounds"⟩
  else .ok ()

/-- `validation::validatePhysicalQuantity`.  The argument models a C++
double: `none` is a non-finite value (caught by the `!isfinite` check),
`some v` a finite one subjected to the range check. -/
def validatePhysicalQuantity (value : Option ℝ) (minValue maxValue : ℝ)
    (name : String) : Except PhysicsValidationError Unit :=
  match value with
  | none => .error ⟨name ++ " calculation resulted in non-finite value"⟩
  | some v =>
    if v < minValue ∨ v > maxValue then .error ⟨name ++ " out of valid range"⟩
    else .ok ()

/-! ## Trajectory result types (physics.h, trajectory.h) -/

/-- physics.h `TrajectoryResult`; the default constructor zeroes the
scalar fields and leaves the vector empty. -/
structure TrajectoryResult where
  trajectory : List TrajectoryPoint
  distance : ℝ
  apex : ℝ

/-- trajectory.h `TrajectoryStatus`. -/
inductive TrajectoryStatus where
  | Success
  | InvalidInput
  | CalculationError
  | ConvergenceFailure
deriving DecidableEq

/-- trajectory.h `TrajectoryResultWithStatus`. -/
structure TrajectoryResultWithStatus where
  status : TrajectoryStatus
  errorMessage : String
  result : Option TrajectoryResult

/-- `TrajectoryResultWithStatus::isSuccess`. -/
def TrajectoryResultWithStatus.isSuccess (r : TrajectoryResultWithStatus) :
    Prop := r.status = TrajectoryStatus.Success

/-! ## The integrator (src/physics/trajectory.cpp) -/

def MIN_TIMESTEP : ℝ := 0.00005
def MAX_TIMESTEP : ℝ := 0.003
def BASE_TIMESTEP : ℝ := 0.0003
def VELOCITY_SCALE : ℝ := 0.045
def ACCEL_SCALE : ℝ := 0.15
def SPIN_SCALE : ℝ := 0.0002
def HEIGHT_SCALE : ℝ := 0.2
def SMOOTH_FACTOR : ℝ := 0.8
def MAX_ITERATIONS : ℕ := 10000

/-- The mutable locals of the simulation loop. -/
structure SimState where
  vx : ℝ
  vy : ℝ
  x : ℝ
  y : ℝ
  prevY : ℝ
  prevTimeStep : ℝ
  prevVx : ℝ
  prevVy : ℝ
  timeStep : ℝ
  traj : List TrajectoryPoint
  apex : ℝ

/-- One iteration of the `while` body of
`calculateTrajectoryWithValidation`.  A thrown
`PhysicsValidationError` becomes `Except.error`. -/
def simStep (initialSpeed spinRate windSpeed windAngle : ℝ)
    (spinAxis : SpinAxis) (s : SimState) :
    Except PhysicsValidationError SimState := do
  let prevY := s.y
  let effectiveWindSpeed := getWindGradient windSpeed s.y
  let rel := calculateRelativeVelocity s.vx s.vy effectiveWindSpeed windAngle
  let relVx := rel.1
  let relVy := rel.2
  let relV := Real.sqrt (relVx * relVx + relVy * relVy)
  validatePhysicalQuantity (some relV) 0.0 200.0 "Relative velocity"
  let currentVelocity : Vector3D := ⟨s.vx, s.vy, 0⟩
  let prevVelocity : Vector3D := ⟨s.prevVx, s.prevVy, 0⟩
  let acceleration := (currentVelocity.sub prevVelocity).scale (1.0 / s.prevTimeStep)
  let accelMagnitude := acceleration.magnitude
  let launchProgress := min 1.0 ((s.traj.length : ℝ) / 12.0)
  let landingFactor :=
    if s.vy < 0 then max 0.0 (min 1.0 ((s.y / 5.0) ^ (0.8 : ℝ))) else 1.0
  let velocityFactor := Real.exp (-VELOCITY_SCALE * relV ^ (0.85 : ℝ))
  let accelFactor := Real.exp (-ACCEL_SCALE * accelMagnitude ^ (0.8 : ℝ))
  let spinFactor := Real.exp (-SPIN_SCALE * spinRate ^ (0.9 : ℝ))
  let heightFactor :=
    min 1.0 ((1.0 - Real.exp (-HEIGHT_SCALE * s.y)) ^ (0.85 : ℝ))
  let phaseFactor := 0.4 + 0.6 * launchProgress * landingFactor
  let rawTimeStep := BASE_TIMESTEP * velocityFactor * accelFactor *
    spinFactor * heightFactor * phaseFactor
  let timeStep0 := SMOOTH_FACTOR * s.prevTimeStep + (1.0 - SMOOTH_FACTOR) * rawTimeStep
  let timeStep := min MAX_TIMESTEP (max MIN_TIMESTEP timeStep0)
  let vel ←
    if relV > 0.001 then do
      let reynoldsNumber := calculateReynoldsNumber relV s.y
      let dragCoef := calculateDragCoefficient reynoldsNumber
      let density := getAirDensity s.y
      validatePhysicalQuantity (some reynoldsNumber) 0.0 1e6 "Reynolds number"
      validatePhysicalQuantity (some dragCoef) 0.0 1.0 "Drag coefficient"
      validatePhysicalQuantity (some density) 0.5 1.5 "Air density"
      let dragForce := 0.5 * density * dragCoef * BALL_AREA * relV * relV
      let elapsedTime := s.x / initialSpeed
      let magnusForce :=
        calculateMagnusForce spinRate relV BALL_RADIUS spinAxis elapsedTime
      validatePhysicalQuantity (some dragForce) 0.0 100.0 "Drag force"
      validatePhysicalQuantity magnusForce (-50.0) 50.0 "Magnus force"
      -- After the validation above succeeded, magnusForce is necessarily
      -- `some`; the default of getD is never used.
      let magnusForceVal := magnusForce.getD 0
      let invRelV := 1.0 / relV
      let dragAx := -dragForce * relVx * invRelV / BALL_MASS
      let dragAy := -dragForce * relVy * invRelV / BALL_MASS
      let magnusAx := -magnusForceVal * relVy * invRelV / BALL_MASS
      let magnusAy := magnusForceVal * relVx * invRelV / BALL_MASS
      validatePhysicalQuantity (some dragAx) (-1000.0) 1000.0 "Drag acceleration X"
      validatePhysicalQuantity (some dragAy) (-1000.0) 1000.0 "Drag acceleration Y"
      validatePhysicalQuantity (some magnusAx) (-500.0) 500.0 "Magnus acceleration X"
      validatePhysicalQuantity (some magnusAy) (-500.0) 500.0 "Magnus acceleration Y"
      pure (s.vx + (dragAx + magnusAx) * timeStep,
            s.vy + (dragAy + magnusAy - GRAVITY) * timeStep)
    else
      pure (s.vx, s.vy - GRAVITY * timeStep)
  let vx := vel.1
  let vy := vel.2
  let x := s.x + vx * timeStep
  let y := s.y + vy * timeStep
  validateTrajectoryPoint ⟨x, y⟩
  let back := s.traj.getLastD ⟨0, 0⟩
  let traj :=
    if s.traj.length < 2 ∨ |x - back.x| > 0.1 ∨ |y - back.y| > 0.1 then
      s.traj ++ [TrajectoryPoint.mk x y]
    else s.traj
  let apex := if y > s.apex then y else s.apex
  pure { vx := vx, vy := vy, x := x, y := y, prevY := prevY,
         prevTimeStep := timeStep, prevVx := s.vx, prevVy := s.vy,
         timeStep := timeStep, traj := traj, apex := apex }

/-- The `while ((y >= 0.0 || trajectory.empty()) && iterationCount++ <
MAX_ITERATIONS)` loop.  `count` is the value of `iterationCount` when the
condition is tested; the post-increment is evaluated (and the counter
bumped) exactly when the first conjunct holds.  Returns the final state
together with the final value of `iterationCount`. -/
def simLoop (initialSpeed spinRate windSpeed windAngle : ℝ)
    (spinAxis : SpinAxis) (s : SimState) (count : ℕ) :
    Except PhysicsValidationError (SimState × ℕ) :=
  if 0.0 ≤ s.y ∨ s.traj.isEmpty then
    if h : count < MAX_ITERATIONS then
      match simStep initialSpeed spinRate windSpeed windAngle spinAxis s with
      | .error e => .error e
      | .ok s2 => simLoop initialSpeed spinRate windSpeed windAngle spinAxis s2 (count + 1)
    else .ok (s, count + 1)
  else .ok (s, count)
termination_by MAX_ITERATIONS - count
decreasing_by omega

/-- The state at loop entry (locals initialised before the loop). -/
def initialState (initialSpeed launchAngle : ℝ) : SimState :=
  let angleRad := launchAngle * Real.pi / 180.0
  let vx := initialSpeed * Real.cos angleRad
  let vy := initialSpeed * Real.sin angleRad
  { vx := vx, vy := vy, x := 0, y := 0, prevY := 0,
    prevTimeStep := BASE_TIMESTEP, prevVx := vx, prevVy := vy,
    timeStep := MIN_TIMESTEP, traj := [⟨0, 0⟩], apex := 0 }

/-- `calculateTrajectoryWithValidation`.  The `catch
(PhysicsValidationError)` clause maps every validation failure — from the
input checks as well as from inside the loop — to `InvalidInput`; the
`catch (std::exception)` clause (status `CalculationError`) has no other
exception source in the model. -/
def calculateTrajectoryWithValidation (initialSpeed launchAngle spinRate
    windSpeed windAngle : ℝ) (spinAxis : SpinAxis) :
    TrajectoryResultWithStatus :=
  match validateLaunchParameters initialSpeed launchAngle spinRate
      windSpeed windAngle with
  | .error e => ⟨.InvalidInput, e.msg, none⟩
  | .ok _ =>
    match simLoop initialSpeed spinRate windSpeed windAngle spinAxis
        (initialState initialSpeed launchAngle) 0 with
    | .error e => ⟨.InvalidInput, e.msg, none⟩
    | .ok (s, count) =>
      if count ≥ MAX_ITERATIONS then
        ⟨.ConvergenceFailure,
         "Trajectory calculation failed to converge within maximum iterations",
         none⟩
      else
        let traj :=
          if ¬s.traj.isEmpty ∧ s.y < 0.0 ∧ s.prevY > 0.0 then
            let t := -s.prevY / (s.y - s.prevY)
            let back := s.traj.getLastD ⟨0, 0⟩
            s.traj.dropLast ++ [TrajectoryPoint.mk (back.x - t * s.vx * s.timeStep) 0.0]
          else s.traj
        ⟨.Success, "",
         some ⟨traj, (traj.getLastD ⟨0, 0⟩).x, s.apex⟩⟩

/-- The legacy `calculateTrajectory` wrapper: dereferences the optional on
success (present by construction there), and returns the
default-constructed `TrajectoryResult` on any failure. -/
def calculateTrajectory (initialSpeed launchAngle spinRate
    windSpeed windAngle : ℝ) (spinAxis : SpinAxis) : TrajectoryResult :=
  let r := calculateTrajectoryWithValidation initialSpeed launchAngle
    spinRate windSpeed windAngle spinAxis
  if r.status = TrajectoryStatus.Success then r.result.getD ⟨[], 0, 0⟩
  else ⟨[], 0, 0⟩

/-! ## Theorems -/

lemma CRITICAL_REYNOLDS_eq : CRITICAL_REYNOLDS = 4e4 := by
  norm_num [CRITICAL_REYNOLDS]

lemma TURBULENT_REYNOLDS_eq : TURBULENT_REYNOLDS = 4e5 := by
  norm_num [TURBULENT_REYNOLDS]

/-- The three regimes of the drag coefficient, written out. -/
lemma calculateDragCoefficient_cases (re : ℝ) :
    calculateDragCoefficient re =
      if re < 4e4 then 0.47
      else if re > 4e5 then 0.47 * 0.5
      else 0.47 * (1.0 - 0.5 * ((re - 4e4) / (4e5 - 4e4))) := by
  simp only [calculateDragCoefficient, CRITICAL_REYNOLDS_eq,
    TURBULENT_REYNOLDS_eq, BASE_DRAG_COEFFICIENT]

/-- C4: `calculateDragCoefficient` is non-increasing in the Reynolds
number, equals `BASE_DRAG_COEFFICIENT` (0.47) for every Re ≤ 4·10⁴,
equals half of it for every Re ≥ 4·10⁵, and in between equals
`BASE_DRAG_COEFFICIENT` times the linear interpolation of the multiplier
from 1.0 to 0.5 in t = (Re − 4·10⁴)/(4·10⁵ − 4·10⁴). -/
theorem calculateDragCoefficient_dragCrisis :
    (∀ r1 r2 : ℝ, r1 ≤ r2 →
      calculateDragCoefficient r2 ≤ calculateDragCoefficient r1) ∧
    (∀ re : ℝ, re ≤ 4e4 →
      calculateDragCoefficient re = BASE_DRAG_COEFFICIENT) ∧
    (∀ re : ℝ, re ≥ 4e5 →
      calculateDragCoefficient re = 0.5 * BASE_DRAG_COEFFICIENT) ∧
    (∀ re : ℝ, 4e4 ≤ re → re ≤ 4e5 →
      calculateDragCoefficient re =
        BASE_DRAG_COEFFICIENT *
          (1.0 + (0.5 - 1.0) * ((re - 4e4) / (4e5 - 4e4)))) := by
  have hB : BASE_DRAG_COEFFICIENT = 0.47 := by norm_num [BASE_DRAG_COEFFICIENT]
  refine ⟨?_, ?_, ?_, ?_⟩
  · intro r1 r2 h12
    rw [calculateDragCoefficient_cases, calculateDragCoefficient_cases]
    split_ifs <;> linarith
  · intro re hre
    rw [calculateDragCoefficient_cases, hB]
    rcases lt_or_eq_of_le hre with hlt | heq
    · rw [if_pos hlt]
    · rw [heq, if_neg (by norm_num), if_neg (by norm_num)]
      norm_num
  · intro re hre
    rw [calculateDragCoefficient_cases, hB]
    rcases eq_or_lt_of_le hre with heq | hlt
    · rw [← heq, if_neg (by norm_num), if_neg (by norm_num)]
      norm_num
    · rw [if_neg (by linarith), if_pos hlt]
      ring
  · intro re h1 h2
    rw [calculateDragCoefficient_cases, hB, if_neg (by linarith),
      if_neg (by linarith)]
    ring

/-- Witness for C4: the four conjuncts instantiated at concrete Reynolds
numbers, hypotheses discharged numerically. -/
theorem calculateDragCoefficient_dragCrisis_witness :
    calculateDragCoefficient 300000 ≤ calculateDragCoefficient 100000 ∧
    calculateDragCoefficient 12345 = BASE_DRAG_COEFFICIENT ∧
    calculateDragCoefficient 500000 = 0.5 * BASE_DRAG_COEFFICIENT ∧
    calculateDragCoefficient 220000 =
      BASE_DRAG_COEFFICIENT *
        (1.0 + (0.5 - 1.0) * (((220000 : ℝ) - 4e4) / (4e5 - 4e4))) :=
  ⟨calculateDragCoefficient_dragCrisis.1 100000 300000 (by norm_num),
   calculateDragCoefficient_dragCrisis.2.1 12345 (by norm_num),
   calculateDragCoefficient_dragCrisis.2.2.1 500000 (by norm_num),
   calculateDragCoefficient_dragCrisis.2.2.2 220000 (by norm_num) (by norm_num)⟩

/-- The layer-selection loop written out by altitude region. -/
lemma findLayerIndex_eq (h : ℝ) :
    findLayerIndex h =
      if h < 11000 then 0 else if h < 20000 then 1 else if h < 32000 then 2
      else if h < 47000 then 3 else 4 := by
  simp only [findLayerIndex, layers, List.drop, findLayerScan, List.length_cons,
    List.length_nil]

/-- C8: `AtmosphericModel::getTemperature` returns
T_base + lapseRate·(h − h_base) of the selected layer: any altitude below
11 000 m (negative ones included) uses layer 0, each band in between its
own layer, and any altitude at or above 47 000 m the last (isothermal)
layer; the lookup is total. -/
theorem getTemperature_layerFormula (h : ℝ) :
    (h < 11000 → getTemperature h = 288.15 + (-0.0065) * (h - 0)) ∧
    (11000 ≤ h → h < 20000 → getTemperature h = 216.65) ∧
    (20000 ≤ h → h < 32000 →
      getTemperature h = 216.65 + 0.001 * (h - 20000)) ∧
    (32000 ≤ h → h < 47000 →
      getTemperature h = 228.65 + 0.0028 * (h - 32000)) ∧
    (47000 ≤ h → getTemperature h = 270.65) := by
  refine ⟨?_, ?_, ?_, ?_, ?_⟩
  · intro h1
    simp only [getTemperature, getLayer, findLayerIndex_eq, if_pos h1]
    simp only [layers, List.getD]
    norm_num
  · intro h1 h2
    simp only [getTemperature, getLayer, findLayerIndex_eq]
    rw [if_neg (by linarith), if_pos h2]
    simp only [layers, List.getD]
    norm_num
  · intro h1 h2
    simp only [getTemperature, getLayer, findLayerIndex_eq]
    rw [if_neg (by linarith), if_neg (by linarith), if_pos h2]
    simp only [layers, List.getD]
    norm_num
  · intro h1 h2
    simp only [getTemperature, getLayer, findLayerIndex_eq]
    rw [if_neg (by linarith), if_neg (by linarith), if_neg (by linarith),
      if_pos h2]
    simp only [layers, List.getD]
    norm_num
  · intro h1
    simp only [getTemperature, getLayer, findLayerIndex_eq]
    rw [if_neg (by linarith), if_neg (by linarith), if_neg (by linarith),
      if_neg (by linarith)]
    simp only [layers, List.getD]
    norm_num

/-- Witness for C8: a negative altitude uses layer 0, and an altitude
above the last base uses the last layer. -/
theorem getTemperature_layerFormula_witness :
    ((-100 : ℝ) < 11000 ∧
      getTemperature (-100) = 288.15 + (-0.0065) * ((-100 : ℝ) - 0)) ∧
    ((47000 : ℝ) ≤ 60000 ∧ getTemperature 60000 = 270.65) :=
  ⟨⟨by norm_num, (getTemperature_layerFormula (-100)).1 (by norm_num)⟩,
   ⟨by norm_num, (getTemperature_layerFormula 60000).2.2.2.2 (by norm_num)⟩⟩

/-- C9 counterexample: the claim quantifies over every spin rate, but at
spin rate 0 the decayed spin is 0 at every time, so the decay is not
strictly decreasing there (t1 = 0, t2 = 1 satisfy t2 > t1 ≥ 0). -/
theorem calculateSpinDecay_not_strict_at_zero_spin :
    (0 : ℝ) ≤ 0 ∧ (0 : ℝ) < 1 ∧
    ¬(calculateSpinDecay 0 0 > calculateSpinDecay 0 1) := by
  refine ⟨le_refl _, by norm_num, ?_⟩
  simp [calculateSpinDecay]

/-- C9 (amended): for every positive spin rate S and all times
t2 > t1 ≥ 0, `calculateSpinDecay(S, t1) > calculateSpinDecay(S, t2)`. -/
theorem calculateSpinDecay_strictAnti (S t1 t2 : ℝ) (hS : 0 < S)
    (h1 : 0 ≤ t1) (h12 : t1 < t2) :
    calculateSpinDecay S t1 > calculateSpinDecay S t2 := by
  unfold calculateSpinDecay
  have hexp : Real.exp (-SPIN_DECAY_RATE * t2) <
      Real.exp (-SPIN_DECAY_RATE * t1) := by
    apply Real.exp_lt_exp.mpr
    unfold SPIN_DECAY_RATE
    nlinarith
  nlinarith [Real.exp_pos (-SPIN_DECAY_RATE * t2),
    Real.exp_pos (-SPIN_DECAY_RATE * t1)]

/-- Witness for C9 (amended) at S = 300, t1 = 0, t2 = 1. -/
theorem calculateSpinDecay_strictAnti_witness :
    (0 : ℝ) < 300 ∧ (0 : ℝ) ≤ 0 ∧ (0 : ℝ) < 1 ∧
    calculateSpinDecay 300 0 > calculateSpinDecay 300 1 :=
  ⟨by norm_num, le_refl _, by norm_num,
   calculateSpinDecay_strictAnti 300 0 1 (by norm_num) (le_refl _) (by norm_num)⟩

/-- C7: every value returned by `calculateTrajectoryWithValidation`
satisfies: on `Success` the optional result is present and the message is
empty; on any other status the optional result is absent. -/
theorem resultWithStatus_invariant (initialSpeed launchAngle spinRate
    windSpeed windAngle : ℝ) (spinAxis : SpinAxis) :
    ((calculateTrajectoryWithValidation initialSpeed launchAngle spinRate
        windSpeed windAngle spinAxis).status = TrajectoryStatus.Success →
      (calculateTrajectoryWithValidation initialSpeed launchAngle spinRate
        windSpeed windAngle spinAxis).result.isSome = true ∧
      (calculateTrajectoryWithValidation initialSpeed launchAngle spinRate
        windSpeed windAngle spinAxis).errorMessage = "") ∧
    ((calculateTrajectoryWithValidation initialSpeed launchAngle spinRate
        windSpeed windAngle spinAxis).status ≠ TrajectoryStatus.Success →
      (calculateTrajectoryWithValidation initialSpeed launchAngle spinRate
        windSpeed windAngle spinAxis).result = none) := by
  unfold calculateTrajectoryWithValidation
  split
  · exact ⟨fun h => absurd h (by simp), fun _ => rfl⟩
  · split
    · exact ⟨fun h => absurd h (by simp), fun _ => rfl⟩
    · split
      · exact ⟨fun h => absurd h (by simp), fun _ => rfl⟩
      · exact ⟨fun _ => ⟨rfl, rfl⟩, fun h => absurd rfl h⟩

/-- C6: whenever the validated calculation does not return `Success`, the
legacy `calculateTrajectory` returns the default-constructed result:
empty trajectory, distance 0 and apex 0 (the error is swallowed, nothing
propagates). -/
theorem calculateTrajectory_zero_on_failure (initialSpeed launchAngle
    spinRate windSpeed windAngle : ℝ) (spinAxis : SpinAxis)
    (h : (calculateTrajectoryWithValidation initialSpeed launchAngle spinRate
      windSpeed windAngle spinAxis).status ≠ TrajectoryStatus.Success) :
    calculateTrajectory initialSpeed launchAngle spinRate windSpeed windAngle
      spinAxis = ⟨[], 0, 0⟩ := by
  unfold calculateTrajectory
  rw [if_neg h]

/-- C2 (amended): when the launch parameters pass validation and an
intermediate quantity check inside the integration loop fails (a
`PhysicsValidationError` is thrown), the function returns status
`InvalidInput` — not `CalculationError` — carrying the validation message
(which names the offending quantity); `CalculationError` is reserved for
exceptions that are not `PhysicsValidationError`. -/
theorem loopError_gives_InvalidInput (initialSpeed launchAngle spinRate
    windSpeed windAngle : ℝ) (spinAxis : SpinAxis)
    (e : PhysicsValidationError)
    (hv : validateLaunchParameters initialSpeed launchAngle spinRate
      windSpeed windAngle = .ok ())
    (hl : simLoop initialSpeed spinRate windSpeed windAngle spinAxis
      (initialState initialSpeed launchAngle) 0 = .error e) :
    calculateTrajectoryWithValidation initialSpeed launchAngle spinRate
      windSpeed windAngle spinAxis =
      ⟨TrajectoryStatus.InvalidInput, e.msg, none⟩ := by
  unfold calculateTrajectoryWithValidation
  rw [hv, hl]

/-- A point accepted by `validateTrajectoryPoint` lies in the validated box. -/
lemma validateTrajectoryPoint_ok_bounds (pt : TrajectoryPoint)
    (h : validateTrajectoryPoint pt = .ok ()) :
    0 ≤ pt.x ∧ pt.x ≤ 1000 ∧ -0.1 ≤ pt.y ∧ pt.y ≤ 500 := by
  unfold validateTrajectoryPoint at h
  split_ifs at h with h1 h2
  push_neg at h1 h2
  exact ⟨by linarith [h1.1], by linarith [h1.2], by linarith [h2.1],
    by linarith [h2.2]⟩

/-- One successful loop iteration either leaves the recorded trajectory
unchanged or appends a single point that passed
`validateTrajectoryPoint` (so its y is at least −0.1). -/
lemma simStep_traj_shape (initialSpeed spinRate windSpeed windAngle : ℝ)
    (spinAxis : SpinAxis) (s s2 : SimState)
    (h : simStep initialSpeed spinRate windSpeed windAngle spinAxis s = .ok s2) :
    s2.traj = s.traj ∨
      ∃ pt, s2.traj = s.traj ++ [pt] ∧ -0.1 ≤ pt.y := by
  unfold simStep at h
  simp only [bind, Except.bind, pure, Except.pure] at h
  by_cases hvy : s.vy < 0
  all_goals first
    | rw [if_pos hvy] at h
    | rw [if_neg hvy] at h
  all_goals repeat' split at h
  all_goals try exact Except.noConfusion h
  all_goals
    rw [Except.ok.injEq] at h
  all_goals
    subst h
  all_goals
    first
      | exact Or.inl rfl
      | (refine Or.inr ⟨_, rfl, ?_⟩
         exact (validateTrajectoryPoint_ok_bounds _ (by assumption)).2.2.1)

/-- The loop preserves the lower bound on recorded y coordinates. -/
lemma simLoop_traj_invariant (initialSpeed spinRate windSpeed windAngle : ℝ)
    (spinAxis : SpinAxis) :
    ∀ (n count : ℕ) (s s2 : SimState) (c2 : ℕ),
      MAX_ITERATIONS - count ≤ n →
      simLoop initialSpeed spinRate windSpeed windAngle spinAxis s count =
        .ok (s2, c2) →
      (∀ pt ∈ s.traj, -0.1 ≤ pt.y) →
      ∀ pt ∈ s2.traj, -0.1 ≤ pt.y := by
  intro n
  induction n with
  | zero =>
    intro count s s2 c2 hn h hinv
    rw [simLoop] at h
    split at h
    · rw [dif_neg (by omega)] at h
      cases h
      exact hinv
    · cases h
      exact hinv
  | succ k ih =>
    intro count s s2 c2 hn h hinv
    rw [simLoop] at h
    split at h
    · by_cases hc : count < MAX_ITERATIONS
      · rw [dif_pos hc] at h
        split at h
        · exact Except.noConfusion h
        · rename_i s3 hstep
          refine ih (count + 1) s3 s2 c2 (by omega) h ?_
          rcases simStep_traj_shape _ _ _ _ _ _ _ hstep with heq | ⟨pt, heq, hpt⟩
          · rw [heq]; exact hinv
          · rw [heq]
            intro q hq
            rcases List.mem_append.mp hq with hql | hqr
            · exact hinv q hql
            · rcases List.mem_singleton.mp hqr with rfl
              exact hpt
      · rw [dif_neg hc] at h
        cases h
        exact hinv
    · cases h
      exact hinv

/-- C3 (amended): every point of a trajectory contained in a returned
result has y ≥ −0.1 (the bound enforced by `validateTrajectoryPoint`;
the final interpolated point has y = 0). -/
theorem success_trajectory_y_ge (initialSpeed launchAngle spinRate
    windSpeed windAngle : ℝ) (spinAxis : SpinAxis) (tr : TrajectoryResult)
    (h : (calculateTrajectoryWithValidation initialSpeed launchAngle spinRate
      windSpeed windAngle spinAxis).result = some tr) :
    ∀ pt ∈ tr.trajectory, -0.1 ≤ pt.y := by
  unfold calculateTrajectoryWithValidation at h
  split at h
  · simp at h
  · split at h
    · simp at h
    · rename_i s count hloop
      split at h
      · simp at h
      · simp only [Option.some.injEq] at h
        subst h
        have hinv : ∀ pt ∈ s.traj, -0.1 ≤ pt.y := by
          refine simLoop_traj_invariant initialSpeed spinRate windSpeed
            windAngle spinAxis MAX_ITERATIONS 0
            (initialState initialSpeed launchAngle) s count
            (by omega) hloop ?_
          · intro pt hpt
            simp only [initialState, List.mem_singleton] at hpt
            rw [hpt]
            norm_num
        intro pt hpt
        simp only at hpt
        split at hpt
        · rcases List.mem_append.mp hpt with hl | hr
          · exact hinv pt (List.dropLast_subset _ hl)
          · rcases List.mem_singleton.mp hr with rfl
            norm_num
        · exact hinv pt hpt

/-! ### Numeric evaluation helpers for the two concrete runs
(`initialSpeed = 50`, `windSpeed = 0`, `windAngle = 0`, altitude 0,
relative velocity 50). -/

lemma validatePhysicalQuantity_ok (name : String) {v lo hi : ℝ}
    (h1 : lo ≤ v) (h2 : v ≤ hi) :
    validatePhysicalQuantity (some v) lo hi name = .ok () := by
  simp only [validatePhysicalQuantity]
  rw [if_neg (by push_neg; exact ⟨h1, h2⟩)]

lemma getWindGradient_zero_zero : getWindGradient 0 0 = 0 := by
  norm_num [getWindGradient]

lemma relVel_50_0 : calculateRelativeVelocity 50 0 (getWindGradient 0 0) 0 =
    (50, 0) := by
  rw [getWindGradient_zero_zero]
  unfold calculateRelativeVelocity
  norm_num

lemma relVel_0_neg50 :
    calculateRelativeVelocity 0 (-50) (getWindGradient 0 0) 0 = (0, -50) := by
  rw [getWindGradient_zero_zero]
  unfold calculateRelativeVelocity
  norm_num

lemma sqrt_50_sq : Real.sqrt ((50 : ℝ) * 50 + 0 * 0) = 50 := by
  rw [show ((50 : ℝ) * 50 + 0 * 0) = 50 ^ 2 by norm_num]
  exact Real.sqrt_sq (by norm_num)

lemma sqrt_neg50_sq : Real.sqrt ((0 : ℝ) * 0 + -50 * -50) = 50 := by
  rw [show ((0 : ℝ) * 0 + -50 * -50) = 50 ^ 2 by norm_num]
  exact Real.sqrt_sq (by norm_num)

lemma getTemperature_zero : getTemperature 0 = 288.15 := by
  simp only [getTemperature, getLayer, findLayerIndex_eq]
  rw [if_pos (by norm_num : (0 : ℝ) < 11000)]
  simp only [layers, List.getD]
  norm_num

lemma getPressure_zero : getPressure 0 = 101325 := by
  simp only [getPressure, getLayer, findLayerIndex_eq]
  rw [if_pos (by norm_num : (0 : ℝ) < 11000)]
  simp only [layers, List.getD, getTemperature_zero]
  rw [if_neg (by rw [abs_lt]; push_neg; intro h; exfalso; norm_num at h)]
  norm_num [Real.one_rpow]

lemma getAirDensity_zero : getAirDensity 0 = 101325 / (287.058 * 288.15) := by
  unfold getAirDensity getDensity atmosR
  rw [getPressure_zero, getTemperature_zero]

lemma reynolds_50_0_eq : calculateReynoldsNumber 50 0 =
    101325 / (287.058 * 288.15) * 50 * (2 * 0.0213) / 1.81e-5 := by
  unfold calculateReynoldsNumber BALL_RADIUS AIR_VISCOSITY
  rw [getAirDensity_zero]

lemma dragCoef_50_0_eq : calculateDragCoefficient (calculateReynoldsNumber 50 0) =
    0.47 * (1.0 - 0.5 * ((101325 / (287.058 * 288.15) * 50 * (2 * 0.0213) /
      1.81e-5 - 4e4) / (4e5 - 4e4))) := by
  rw [calculateDragCoefficient_cases,
    if_neg (by rw [reynolds_50_0_eq]; norm_num),
    if_neg (by rw [reynolds_50_0_eq]; norm_num), reynolds_50_0_eq]

lemma hv_relV : validatePhysicalQuantity (some (50 : ℝ)) 0.0 200.0
    "Relative velocity" = .ok () :=
  validatePhysicalQuantity_ok _ (by norm_num) (by norm_num)

lemma hv_reynolds : validatePhysicalQuantity (some (calculateReynoldsNumber 50 0))
    0.0 1e6 "Reynolds number" = .ok () :=
  validatePhysicalQuantity_ok _ (by rw [reynolds_50_0_eq]; norm_num)
    (by rw [reynolds_50_0_eq]; norm_num)

lemma hv_dragCoef : validatePhysicalQuantity
    (some (calculateDragCoefficient (calculateReynoldsNumber 50 0))) 0.0 1.0
    "Drag coefficient" = .ok () :=
  validatePhysicalQuantity_ok _ (by rw [dragCoef_50_0_eq]; norm_num)
    (by rw [dragCoef_50_0_eq]; norm_num)

lemma hv_density : validatePhysicalQuantity (some (getAirDensity 0)) 0.5 1.5
    "Air density" = .ok () :=
  validatePhysicalQuantity_ok _ (by rw [getAirDensity_zero]; norm_num)
    (by rw [getAirDensity_zero]; norm_num)

/-- Sharp enough bounds on the drag force at relative velocity 50 and
altitude 0 (the quantity is linear in π after the rational parts are
substituted). -/
lemma dragForce_50_0_bounds :
    0.8 < 0.5 * getAirDensity 0 *
        calculateDragCoefficient (calculateReynoldsNumber 50 0) *
        BALL_AREA * 50 * 50 ∧
      0.5 * getAirDensity 0 *
        calculateDragCoefficient (calculateReynoldsNumber 50 0) *
        BALL_AREA * 50 * 50 < 0.9 := by
  rw [getAirDensity_zero, dragCoef_50_0_eq]
  unfold BALL_AREA BALL_RADIUS
  constructor <;> nlinarith [Real.pi_gt_d4, Real.pi_lt_d4]

lemma hv_dragForce : validatePhysicalQuantity
    (some (0.5 * getAirDensity 0 *
      calculateDragCoefficient (calculateReynoldsNumber 50 0) *
      BALL_AREA * 50 * 50)) 0.0 100.0 "Drag force" = .ok () :=
  validatePhysicalQuantity_ok _
    (by linarith [dragForce_50_0_bounds.1])
    (by linarith [dragForce_50_0_bounds.2])

/-- At spin rate 0 the decayed spin is 0 and the 0/0 divisions make the
C++ result NaN: the model returns `none` for every velocity, radius,
axis and time. -/
lemma calculateMagnusForce_zero_spin (v r : ℝ) (ax : SpinAxis) (t : ℝ) :
    calculateMagnusForce 0 v r ax t = none := by
  unfold calculateMagnusForce calculateSpinDecay
  simp

lemma initialState_50_0 : initialState 50 0 =
    { vx := 50, vy := 0, x := 0, y := 0, prevY := 0, prevTimeStep := 0.0003,
      prevVx := 50, prevVy := 0, timeStep := 0.00005,
      traj := [⟨0, 0⟩], apex := 0 } := by
  unfold initialState BASE_TIMESTEP MIN_TIMESTEP
  norm_num [Real.cos_zero, Real.sin_zero]

lemma initialState_50_neg90 : initialState 50 (-90) =
    { vx := 0, vy := -50, x := 0, y := 0, prevY := 0, prevTimeStep := 0.0003,
      prevVx := 0, prevVy := -50, timeStep := 0.00005,
      traj := [⟨0, 0⟩], apex := 0 } := by
  unfold initialState BASE_TIMESTEP MIN_TIMESTEP
  rw [show ((-90 : ℝ) * Real.pi / 180.0) = -(Real.pi / 2) by ring]
  norm_num [Real.cos_neg, Real.sin_neg, Real.cos_pi_div_two, Real.sin_pi_div_two]

lemma vLaunch_spin0 : validateLaunchParameters 50 0 0 0 0 = .ok () := by
  unfold validateLaunchParameters
  norm_num

lemma vLaunch_vert : validateLaunchParameters 50 (-90) 3000 0 0 = .ok () := by
  unfold validateLaunchParameters
  norm_num

/-- With spin 3000 rpm on a fully tilted axis (tilt 90°, direction 0°)
the two force components cancel exactly: the vertical spin component is
3000·cos(π/2) = 0 and the direction factor sin(0) kills the horizontal
part, so the Magnus force is exactly 0. -/
lemma magnus_vert : calculateMagnusForce 3000 50 BALL_RADIUS ⟨90, 0⟩
    ((0 : ℝ) / 50) = some 0 := by
  unfold calculateMagnusForce calculateSpinDecay
  rw [show ((0 : ℝ) / 50) = 0 by norm_num]
  norm_num [Real.exp_zero, Real.cos_zero, Real.sin_zero]
  right
  rw [show (90 : ℝ) * Real.pi / 180 = Real.pi / 2 by ring]
  exact Real.cos_pi_div_two

lemma hv_magnus_err : validatePhysicalQuantity
    (calculateMagnusForce 0 50 BALL_RADIUS ⟨0, 0⟩ ((0 : ℝ) / 50))
    (-50.0) 50.0 "Magnus force" =
    .error ⟨"Magnus force calculation resulted in non-finite value"⟩ := by
  rw [calculateMagnusForce_zero_spin]
  rfl

lemma hv_magnus_vert : validatePhysicalQuantity
    (calculateMagnusForce 3000 50 BALL_RADIUS ⟨90, 0⟩ ((0 : ℝ) / 50))
    (-50.0) 50.0 "Magnus force" = .ok () := by
  rw [magnus_vert]
  exact validatePhysicalQuantity_ok _ (by norm_num) (by norm_num)

/-- First loop iteration of the spin-0 run: the Magnus force is NaN
(0/0), its validation throws, and the step fails. -/
lemma simStep_spin0_err :
    simStep 50 0 0 0 ⟨0, 0⟩
      { vx := 50, vy := 0, x := 0, y := 0, prevY := 0, prevTimeStep := 0.0003,
        prevVx := 50, prevVy := 0, timeStep := 0.00005,
        traj := [⟨0, 0⟩], apex := 0 } =
      .error ⟨"Magnus force calculation resulted in non-finite value"⟩ := by
  unfold simStep
  simp only [bind, Except.bind, pure, Except.pure, relVel_50_0, sqrt_50_sq,
    hv_relV, hv_reynolds, hv_dragCoef, hv_density, hv_dragForce, hv_magnus_err]
  rw [if_pos (show (50 : ℝ) > 0.001 by norm_num)]

lemma simLoop_spin0 :
    simLoop 50 0 0 0 ⟨0, 0⟩ (initialState 50 0) 0 =
      .error ⟨"Magnus force calculation resulted in non-finite value"⟩ := by
  rw [initialState_50_0, simLoop]
  dsimp only
  rw [if_pos (Or.inl (by norm_num)), dif_pos (by norm_num [MAX_ITERATIONS]),
    simStep_spin0_err]

lemma run_spin0 : calculateTrajectoryWithValidation 50 0 0 0 0 ⟨0, 0⟩ =
    ⟨.InvalidInput, "Magnus force calculation resulted in non-finite value",
     none⟩ := by
  unfold calculateTrajectoryWithValidation
  rw [vLaunch_spin0, simLoop_spin0]

lemma sqrt_neg50_mul : Real.sqrt ((-50 : ℝ) * -50) = 50 := by
  rw [show ((-50 : ℝ) * -50) = 50 ^ 2 by norm_num]
  exact Real.sqrt_sq (by norm_num)

lemma magnus_vert0 : calculateMagnusForce 3000 50 BALL_RADIUS ⟨90, 0⟩ 0 =
    some 0 := by
  unfold calculateMagnusForce calculateSpinDecay
  norm_num [Real.exp_zero, Real.cos_zero, Real.sin_zero]
  right
  rw [show (90 : ℝ) * Real.pi / 180 = Real.pi / 2 by ring]
  exact Real.cos_pi_div_two

lemma hv_magnus_vert0 : validatePhysicalQuantity
    (calculateMagnusForce 3000 50 BALL_RADIUS ⟨90, 0⟩ 0)
    (-50.0) 50.0 "Magnus force" = .ok () := by
  rw [magnus_vert0]
  exact validatePhysicalQuantity_ok _ (by norm_num) (by norm_num)

lemma hv_magnus_some0 : validatePhysicalQuantity (some (0 : ℝ)) (-50.0) 50.0
    "Magnus force" = .ok () :=
  validatePhysicalQuantity_ok _ (by norm_num) (by norm_num)

lemma hv_zero_dragAx : validatePhysicalQuantity (some (0 : ℝ)) (-1000.0) 1000.0
    "Drag acceleration X" = .ok () :=
  validatePhysicalQuantity_ok _ (by norm_num) (by norm_num)

lemma hv_zero_magAx : validatePhysicalQuantity (some (0 : ℝ)) (-500.0) 500.0
    "Magnus acceleration X" = .ok () :=
  validatePhysicalQuantity_ok _ (by norm_num) (by norm_num)

lemma hv_zero_magAy : validatePhysicalQuantity (some (0 : ℝ)) (-500.0) 500.0
    "Magnus acceleration Y" = .ok () :=
  validatePhysicalQuantity_ok _ (by norm_num) (by norm_num)

/-- Bounds on the vertical drag deceleration in the vertical run
(drag force divided by the ball mass, about 19 m/s²). -/
lemma dragAy_vert_bounds :
    17 < -(0.5 * getAirDensity 0 *
        calculateDragCoefficient (calculateReynoldsNumber 50 0) *
        BALL_AREA * 50 * 50) * -50 * (1.0 / 50) / BALL_MASS ∧
      -(0.5 * getAirDensity 0 *
        calculateDragCoefficient (calculateReynoldsNumber 50 0) *
        BALL_AREA * 50 * 50) * -50 * (1.0 / 50) / BALL_MASS < 20 := by
  have h := dragForce_50_0_bounds
  have heq : -(0.5 * getAirDensity 0 *
      calculateDragCoefficient (calculateReynoldsNumber 50 0) *
      BALL_AREA * 50 * 50) * -50 * (1.0 / 50) / BALL_MASS =
      (0.5 * getAirDensity 0 *
        calculateDragCoefficient (calculateReynoldsNumber 50 0) *
        BALL_AREA * 50 * 50) * (10000 / 459) := by
    unfold BALL_MASS
    ring
  rw [heq]
  constructor <;> nlinarith [h.1, h.2]

lemma hv_dragAy_vert : validatePhysicalQuantity
    (some (-(0.5 * getAirDensity 0 *
      calculateDragCoefficient (calculateReynoldsNumber 50 0) *
      BALL_AREA * 50 * 50) * -50 * (1.0 / 50) / BALL_MASS))
    (-1000.0) 1000.0 "Drag acceleration Y" = .ok () :=
  validatePhysicalQuantity_ok _ (by linarith [dragAy_vert_bounds.1])
    (by linarith [dragAy_vert_bounds.2])

/-- The landing height after one step of the vertical run: about
−0.012 m, inside the validated box but below −0.001. -/
lemma y1_vert_bounds :
    -0.1 ≤ (-50 + (-(0.5 * getAirDensity 0 *
        calculateDragCoefficient (calculateReynoldsNumber 50 0) *
        BALL_AREA * 50 * 50) * -50 * (1.0 / 50) / BALL_MASS - GRAVITY) *
        0.00024) * 0.00024 ∧
      (-50 + (-(0.5 * getAirDensity 0 *
        calculateDragCoefficient (calculateReynoldsNumber 50 0) *
        BALL_AREA * 50 * 50) * -50 * (1.0 / 50) / BALL_MASS - GRAVITY) *
        0.00024) * 0.00024 < -0.001 := by
  have h := dragAy_vert_bounds
  unfold GRAVITY
  set q := -(0.5 * getAirDensity 0 *
    calculateDragCoefficient (calculateReynoldsNumber 50 0) *
    BALL_AREA * 50 * 50) * -50 * (1.0 / 50) / BALL_MASS with hq
  constructor <;> nlinarith [h.1, h.2]

lemma validateTrajectoryPoint_ok_of_bounds (pt : TrajectoryPoint)
    (h1 : 0 ≤ pt.x) (h2 : pt.x ≤ 1000) (h3 : -0.1 ≤ pt.y) (h4 : pt.y ≤ 500) :
    validateTrajectoryPoint pt = .ok () := by
  unfold validateTrajectoryPoint
  rw [if_neg (by push_neg; exact ⟨by linarith, by linarith⟩),
    if_neg (by push_neg; exact ⟨by linarith, by linarith⟩)]

lemma hv_vtp_vert : validateTrajectoryPoint
    ⟨0, (-50 + (-(0.5 * getAirDensity 0 *
      calculateDragCoefficient (calculateReynoldsNumber 50 0) *
      BALL_AREA * 50 * 50) * -50 * (1.0 / 50) / BALL_MASS - GRAVITY) *
      0.00024) * 0.00024⟩ = .ok () := by
  refine validateTrajectoryPoint_ok_of_bounds _ (by norm_num) (by norm_num)
    ?_ ?_
  · exact y1_vert_bounds.1
  · have h := y1_vert_bounds.2
    dsimp only
    linarith

/-- One step of the vertical run (launch straight down at 50 m/s, spin
3000 rpm on a tilt-90° axis): the Magnus force is exactly 0, the x
coordinate stays 0, and the ball ends the step below ground. -/
lemma simStep_vert_eq :
    simStep 50 3000 0 0 ⟨90, 0⟩
      { vx := 0, vy := -50, x := 0, y := 0, prevY := 0, prevTimeStep := 0.0003,
        prevVx := 0, prevVy := -50, timeStep := 0.00005,
        traj := [⟨0, 0⟩], apex := 0 } =
      .ok { vx := 0,
            vy := -50 + (-(0.5 * getAirDensity 0 *
              calculateDragCoefficient (calculateReynoldsNumber 50 0) *
              BALL_AREA * 50 * 50) * -50 * (1.0 / 50) / BALL_MASS - GRAVITY) *
              0.00024,
            x := 0,
            y := (-50 + (-(0.5 * getAirDensity 0 *
              calculateDragCoefficient (calculateReynoldsNumber 50 0) *
              BALL_AREA * 50 * 50) * -50 * (1.0 / 50) / BALL_MASS - GRAVITY) *
              0.00024) * 0.00024,
            prevY := 0, prevTimeStep := 0.00024, prevVx := 0, prevVy := -50,
            timeStep := 0.00024,
            traj := [⟨0, 0⟩,
              ⟨0, (-50 + (-(0.5 * getAirDensity 0 *
                calculateDragCoefficient (calculateReynoldsNumber 50 0) *
                BALL_AREA * 50 * 50) * -50 * (1.0 / 50) / BALL_MASS - GRAVITY) *
                0.00024) * 0.00024⟩],
            apex := 0 } := by
  have hApex : ¬((-50 + (-(0.5 * getAirDensity 0 *
      calculateDragCoefficient (calculateReynoldsNumber 50 0) *
      BALL_AREA * 50 * 50) * -50 * (1.0 / 50) / BALL_MASS - GRAVITY) *
      0.00024) * 0.00024 > 0) := by
    have h := y1_vert_bounds.2
    linarith
  unfold simStep
  simp only [bind, Except.bind, pure, Except.pure, relVel_0_neg50,
    sqrt_neg50_mul, hv_relV, hv_reynolds, hv_dragCoef, hv_density,
    hv_dragForce, hv_magnus_vert0, magnus_vert0, hv_magnus_some0,
    Option.getD_some,
    Vector3D.sub, Vector3D.scale, Vector3D.magnitude, sub_self, mul_zero,
    zero_mul, zero_div, zero_add, add_zero, neg_zero, Real.sqrt_zero,
    Real.exp_zero, hv_zero_dragAx, hv_zero_magAx, hv_zero_magAy,
    hv_dragAy_vert, hv_vtp_vert,
    Real.zero_rpow (show (0.85 : ℝ) ≠ 0 by norm_num),
    Real.zero_rpow (show (0.8 : ℝ) ≠ 0 by norm_num),
    show (1.0 : ℝ) - 1 = 0 by norm_num,
    show min (1.0 : ℝ) 0 = 0 by norm_num,
    show max (0.0 : ℝ) 0 = 0 by norm_num,
    SMOOTH_FACTOR, MIN_TIMESTEP, MAX_TIMESTEP,
    show (0.8 : ℝ) * 0.0003 = 0.00024 by norm_num,
    show max (0.00005 : ℝ) 0.00024 = 0.00024 by norm_num,
    show min (0.003 : ℝ) 0.00024 = 0.00024 by norm_num,
    if_pos (show (50 : ℝ) > 0.001 by norm_num),
    if_pos (show ((-50 : ℝ)) < 0 by norm_num)]
  rw [if_neg hApex]
  norm_num [List.getLastD]

/-- The vertical run does exactly one loop iteration: the ball is below
ground afterwards, so the condition fails at the second test and the loop
exits with `iterationCount = 1`. -/
lemma simLoop_vert :
    simLoop 50 3000 0 0 ⟨90, 0⟩ (initialState 50 (-90)) 0 =
      .ok ({ vx := 0,
             vy := -50 + (-(0.5 * getAirDensity 0 *
               calculateDragCoefficient (calculateReynoldsNumber 50 0) *
               BALL_AREA * 50 * 50) * -50 * (1.0 / 50) / BALL_MASS - GRAVITY) *
               0.00024,
             x := 0,
             y := (-50 + (-(0.5 * getAirDensity 0 *
               calculateDragCoefficient (calculateReynoldsNumber 50 0) *
               BALL_AREA * 50 * 50) * -50 * (1.0 / 50) / BALL_MASS - GRAVITY) *
               0.00024) * 0.00024,
             prevY := 0, prevTimeStep := 0.00024, prevVx := 0, prevVy := -50,
             timeStep := 0.00024,
             traj := [⟨0, 0⟩,
               ⟨0, (-50 + (-(0.5 * getAirDensity 0 *
                 calculateDragCoefficient (calculateReynoldsNumber 50 0) *
                 BALL_AREA * 50 * 50) * -50 * (1.0 / 50) / BALL_MASS -
                 GRAVITY) * 0.00024) * 0.00024⟩],
             apex := 0 }, 1) := by
  rw [initialState_50_neg90, simLoop]
  rw [if_pos (Or.inl (by norm_num))]
  rw [dif_pos (by norm_num [MAX_ITERATIONS])]
  rw [simStep_vert_eq]
  dsimp only
  rw [simLoop]
  rw [if_neg ?hcond]
  case hcond =>
    rintro (hy | he)
    · have h := y1_vert_bounds.2
      dsimp only at hy
      linarith
    · simp at he

/-- The full vertical run: `Success`, with the two-point trajectory
recorded during the single iteration; the ground interpolation is skipped
because `prevY = 0` is not strictly positive. -/
lemma run_vert :
    calculateTrajectoryWithValidation 50 (-90) 3000 0 0 ⟨90, 0⟩ =
      ⟨.Success, "",
       some ⟨[⟨0, 0⟩,
         ⟨0, (-50 + (-(0.5 * getAirDensity 0 *
           calculateDragCoefficient (calculateReynoldsNumber 50 0) *
           BALL_AREA * 50 * 50) * -50 * (1.0 / 50) / BALL_MASS - GRAVITY) *
           0.00024) * 0.00024⟩], 0, 0⟩⟩ := by
  unfold calculateTrajectoryWithValidation
  rw [vLaunch_vert, simLoop_vert]
  dsimp only
  rw [if_neg (by norm_num [MAX_ITERATIONS])]
  rw [if_neg (fun h => absurd h.2.2 (by norm_num))]
  norm_num [List.getLastD]

/-- C1: the failing input. initialSpeed 50 ∈ [0,100], launchAngle 0,
spinRate 0 ∈ [0,10000], windSpeed 0, windAngle 0 all pass input
validation, yet the run does not return `Success` with a trajectory: the
0/0 in `calculateMagnusForce` at spin 0 makes the Magnus force NaN, the
in-loop validation throws, and the result is `InvalidInput` with no
trajectory. -/
theorem validInput_spin0_not_success :
    validateLaunchParameters 50 0 0 0 0 = .ok () ∧
    (calculateTrajectoryWithValidation 50 0 0 0 0 ⟨0, 0⟩).status =
      TrajectoryStatus.InvalidInput ∧
    (calculateTrajectoryWithValidation 50 0 0 0 0 ⟨0, 0⟩).status ≠
      TrajectoryStatus.Success ∧
    (calculateTrajectoryWithValidation 50 0 0 0 0 ⟨0, 0⟩).result = none := by
  refine ⟨vLaunch_spin0, ?_, ?_, ?_⟩ <;> rw [run_spin0] <;> simp

/-- C2 counterexample: an intermediate quantity (the Magnus force) is
flagged non-finite during integration and named in the message, but the
status is `InvalidInput`, not `CalculationError`: the
`PhysicsValidationError` catch comes first and maps every validation
failure to `InvalidInput`. -/
theorem intermediateError_status_not_CalculationError :
    (calculateTrajectoryWithValidation 50 0 0 0 0 ⟨0, 0⟩).errorMessage =
      "Magnus force calculation resulted in non-finite value" ∧
    (calculateTrajectoryWithValidation 50 0 0 0 0 ⟨0, 0⟩).status ≠
      TrajectoryStatus.CalculationError ∧
    (calculateTrajectoryWithValidation 50 0 0 0 0 ⟨0, 0⟩).status =
      TrajectoryStatus.InvalidInput := by
  rw [run_spin0]
  exact ⟨rfl, by simp, rfl⟩

/-- Witness for C2 (amended), at the spin-0 input: the loop fails with
the Magnus-force message and the function returns exactly
`InvalidInput` with that message. -/
theorem loopError_gives_InvalidInput_witness :
    calculateTrajectoryWithValidation 50 0 0 0 0 ⟨0, 0⟩ =
      ⟨TrajectoryStatus.InvalidInput,
       "Magnus force calculation resulted in non-finite value", none⟩ :=
  loopError_gives_InvalidInput 50 0 0 0 0 ⟨0, 0⟩
    ⟨"Magnus force calculation resulted in non-finite value"⟩
    vLaunch_spin0 simLoop_spin0

/-- Witness for C6 at a failing input (the spin-0 run, which is not
`Success`): the legacy wrapper returns the zeroed result. -/
theorem calculateTrajectory_zero_on_failure_witness :
    calculateTrajectory 50 0 0 0 0 ⟨0, 0⟩ = ⟨[], 0, 0⟩ :=
  calculateTrajectory_zero_on_failure 50 0 0 0 0 ⟨0, 0⟩
    (by rw [run_spin0]; simp)

/-- Witness for C7 at the spin-0 input: the status is not `Success` and
the optional result is indeed absent. -/
theorem resultWithStatus_invariant_witness :
    (calculateTrajectoryWithValidation 50 0 0 0 0 ⟨0, 0⟩).result = none :=
  (resultWithStatus_invariant 50 0 0 0 0 ⟨0, 0⟩).2 (by rw [run_spin0]; simp)

/-- C10: at spin rate 0 `calculateMagnusForce` divides the decayed spin
components by 0 (0/0), so it returns no finite number for any velocity,
radius, axis and time (modelled as `none`); the integrator's guarded
non-finite check on the Magnus force is reachable under valid launch
parameters — the spin-0 run fails exactly there, with the Magnus-force
message surfaced. -/
theorem magnusForce_nan_at_zero_spin :
    (∀ (v r : ℝ) (ax : SpinAxis) (t : ℝ),
      calculateMagnusForce 0 v r ax t = none) ∧
    (calculateTrajectoryWithValidation 50 0 0 0 0 ⟨0, 0⟩).errorMessage =
      "Magnus force calculation resulted in non-finite value" ∧
    (calculateTrajectoryWithValidation 50 0 0 0 0 ⟨0, 0⟩).status =
      TrajectoryStatus.InvalidInput :=
  ⟨calculateMagnusForce_zero_spin, by rw [run_spin0], by rw [run_spin0]⟩

/-- C3 counterexample: the vertical run (50 m/s straight down, spin 3000
on a tilt-90° axis, no wind) returns `Success` with trajectory
[(0,0), (0, y₁)] where y₁ ≈ −0.012: the x coordinates are not strictly
increasing (0 = 0) and y₁ < −0.001, so the claimed invariant fails. -/
theorem success_trajectory_claim_false :
    (calculateTrajectoryWithValidation 50 (-90) 3000 0 0 ⟨90, 0⟩).status =
      TrajectoryStatus.Success ∧
    ¬ List.Chain' (fun p q : TrajectoryPoint => p.x < q.x)
      [⟨0, 0⟩,
       ⟨0, (-50 + (-(0.5 * getAirDensity 0 *
         calculateDragCoefficient (calculateReynoldsNumber 50 0) *
         BALL_AREA * 50 * 50) * -50 * (1.0 / 50) / BALL_MASS - GRAVITY) *
         0.00024) * 0.00024⟩] ∧
    ¬(∀ tr : TrajectoryResult,
        (calculateTrajectoryWithValidation 50 (-90) 3000 0 0 ⟨90, 0⟩).result =
          some tr →
        (List.Chain' (fun p q : TrajectoryPoint => p.x < q.x) tr.trajectory ∧
         ∀ pt ∈ tr.trajectory, -0.001 ≤ pt.y)) := by
  refine ⟨by rw [run_vert], ?_, ?_⟩
  · intro hchain
    have h := (List.chain'_cons.mp hchain).1
    exact absurd h (by norm_num)
  · intro hall
    have h := hall _ (by rw [run_vert])
    have hy := h.2
      ⟨0, (-50 + (-(0.5 * getAirDensity 0 *
        calculateDragCoefficient (calculateReynoldsNumber 50 0) *
        BALL_AREA * 50 * 50) * -50 * (1.0 / 50) / BALL_MASS - GRAVITY) *
        0.00024) * 0.00024⟩ (by simp)
    have hb := y1_vert_bounds.2
    dsimp only at hy
    linarith

/-- Witness for C3 (amended): the vertical run yields a `Success` result
whose first trajectory point (0,0) indeed satisfies y ≥ −0.1. -/
theorem success_trajectory_y_ge_witness :
    (-0.1 : ℝ) ≤ (TrajectoryPoint.mk 0 0).y :=
  success_trajectory_y_ge 50 (-90) 3000 0 0 ⟨90, 0⟩
    ⟨[⟨0, 0⟩,
      ⟨0, (-50 + (-(0.5 * getAirDensity 0 *
        calculateDragCoefficient (calculateReynoldsNumber 50 0) *
        BALL_AREA * 50 * 50) * -50 * (1.0 / 50) / BALL_MASS - GRAVITY) *
        0.00024) * 0.00024⟩], 0, 0⟩
    (by rw [run_vert]) ⟨0, 0⟩ (by simp)

end

end GptGolf
